import Mathlib

/-!
Verification of the reaction-time game in
PastaProgramaDoCircuito/hardware&Software.py.

The embedding models the pure logic of the program: the classification
thresholds and feedback branches of mostrar_resultado, the deadline-bounded
polling loop of iniciar_teste, the trigger guard implemented with
GPIO.remove_event_detect / add_event_detect, the HC-SR04 driver
medir_distancia (real and simulation branches), and an exception model in
which each GPIO output call may raise, mirroring the try/except structure
of the Python source.  Times and distances are rationals: the source
compares float literals with two-digit decimal constants, and no double
lies strictly between such a constant and its rational value, so every
comparison agrees with the float program.  The one place where double
arithmetic (not just comparison) matters is random.uniform(2, 5), whose
evaluation of 2 + (5-2)*u rounds; for it the file carries an exact model
of binary64 rounding (roundEvenQ, fl64).
-/

/-- Constant LIMITE_EXCELENTE = 0.3 from the source. -/
def LIMITE_EXCELENTE : ℚ := 3/10

/-- Constant LIMITE_MEDIO = 0.6 from the source. -/
def LIMITE_MEDIO : ℚ := 6/10

/-- Constant DISTANCIA_GATILHO = 10 from the source. -/
def DISTANCIA_GATILHO : ℚ := 10

/-- Constant VELOCIDADE_DO_SOM = 34300 from the source. -/
def VELOCIDADE_DO_SOM : ℚ := 34300

/-- The 5.0-second reaction window in the while condition of iniciar_teste. -/
def JANELA_REACAO : ℚ := 5

/-- The literal 9.99 passed to mostrar_resultado on the timeout path. -/
def TEMPO_TIMEOUT : ℚ := 999/100

/-- The three result tiers printed by mostrar_resultado. -/
inductive Reflexo where
  | excelente
  | medio
  | lento
deriving DecidableEq

/-- The if / elif / else chain of mostrar_resultado, as a tier. -/
def classificar (t : ℚ) : Reflexo :=
  if t ≤ LIMITE_EXCELENTE then .excelente
  else if t ≤ LIMITE_MEDIO then .medio
  else .lento

/-- The three LEDs (PIN_LED_AMARELO, PIN_LED_VERDE, PIN_LED_VERMELHO). -/
inductive Luz where
  | amarelo
  | verde
  | vermelho
deriving DecidableEq

/-- Output events the trial code emits.  A tom event is the scoped buzzer
activation of tocar_tom (duty 50, hold for the duration, duty 0): its net
effect on the output state is nil, and its frequency and duration record
which tone was played. -/
inductive OutEv where
  | led (l : Luz) (b : Bool)
  | buzzer (b : Bool)
  | tom (freq : ℕ) (dur : ℚ)
deriving DecidableEq

/-- The observable output state: three LEDs and the buzzer. -/
structure Saidas where
  amarelo : Bool
  verde : Bool
  vermelho : Bool
  buzzer : Bool
deriving DecidableEq

/-- All outputs off. -/
def saidasOff : Saidas := ⟨false, false, false, false⟩

/-- Effect of one output event on the output state. -/
def aplicarEv (s : Saidas) (e : OutEv) : Saidas :=
  match e with
  | .led .amarelo b => { s with amarelo := b }
  | .led .verde b => { s with verde := b }
  | .led .vermelho b => { s with vermelho := b }
  | .buzzer b => { s with buzzer := b }
  | .tom _ _ => s

/-- Event sequence of limpar_saidas: all three LEDs off, buzzer off. -/
def limparEvents : List OutEv :=
  [.led .amarelo false, .led .verde false, .led .vermelho false, .buzzer false]

/-- Event sequence of mostrar_resultado t: clear everything, run the
classification branch (green LED and a 1500 Hz 0.2 s tone; or the yellow
LED blinking three times; or the red LED and a 440 Hz 1.0 s tone), wait,
clear everything again. -/
def mostrar_resultado_events (t : ℚ) : List OutEv :=
  limparEvents ++
    (if t ≤ LIMITE_EXCELENTE then
      [.led .verde true, .tom 1500 (1/5)]
    else if t ≤ LIMITE_MEDIO then
      [.led .amarelo true, .led .amarelo false, .led .amarelo true,
       .led .amarelo false, .led .amarelo true, .led .amarelo false]
    else
      [.led .vermelho true, .tom 440 1]) ++
    limparEvents

/-- Number of LEDs lit in an output state. -/
def luzesAcesas (s : Saidas) : ℕ :=
  (if s.amarelo then 1 else 0) + (if s.verde then 1 else 0) +
    (if s.vermelho then 1 else 0)

/-- At most one LED lit, and in particular never the armed (yellow) LED
together with the go (green) LED. -/
def luzOk (s : Saidas) : Bool :=
  decide (luzesAcesas s ≤ 1) && !(s.amarelo && s.verde)

/-- One iteration of the polling loop of iniciar_teste: the elapsed time at
the while check, the distance medir_distancia returned, and the elapsed
time at which tempo_reacao would be computed on detection. -/
structure Tick where
  tCheck : ℚ
  dist : ℚ
  tReact : ℚ
deriving DecidableEq

/-- How the polling loop exits: a detection (break with reaction time r),
the while condition failing at the deadline, or the observed trace running
out before either happened (the real loop would keep iterating). -/
inductive PollExit where
  | detected (r : ℚ)
  | deadline
  | truncated
deriving DecidableEq

/-- The while loop of iniciar_teste: while elapsed < 5.0, read the sensor;
a reading at or under DISTANCIA_GATILHO breaks with the reaction time. -/
def pollLoop : List Tick → PollExit
  | [] => .truncated
  | t :: rest =>
    if t.tCheck < JANELA_REACAO then
      if t.dist ≤ DISTANCIA_GATILHO then .detected t.tReact else pollLoop rest
    else .deadline

/-- Output events of one full run of iniciar_teste, parameterised by the
loop outcome: yellow on, (random sleep), yellow off, green on, then
mostrar_resultado with the measured time, or with 9.99 on timeout. -/
def trialEventsOf (reagiu : Option ℚ) : List OutEv :=
  [.led .amarelo true, .led .amarelo false, .led .verde true] ++
    mostrar_resultado_events (reagiu.getD TEMPO_TIMEOUT)

/-- Round a rational to the nearest integer, ties to even: the rounding
direction IEEE-754 binary64 arithmetic uses by default. -/
def roundEvenQ (y : ℚ) : ℤ :=
  if y - ⌊y⌋ < 1/2 then ⌊y⌋
  else if (1:ℚ)/2 < y - ⌊y⌋ then ⌊y⌋ + 1
  else if Even ⌊y⌋ then ⌊y⌋ else ⌊y⌋ + 1

/-- Round a positive rational to the nearest IEEE binary64 double (53-bit
significand, round to nearest, ties to even), with unbounded exponent
range: every value this file applies it to lies far inside the normal
range, where this agrees exactly with binary64.  Nonpositive arguments
(only 0 occurs below) are returned unchanged. -/
def fl64 (x : ℚ) : ℚ :=
  if x ≤ 0 then x
  else (roundEvenQ (x * 2 ^ (52 - Int.log 2 x)) : ℚ) * 2 ^ (Int.log 2 x - 52)

/-- CPython's random.uniform(a, b) = a + (b-a)*random() as the program's
binary64 arithmetic evaluates it: the subtraction, the multiplication and
the addition are each rounded once; the arguments and the random() sample
k/2^53 are exact doubles already. -/
def uniform_fl (a b u : ℚ) : ℚ := fl64 (a + fl64 (fl64 (b - a) * u))

/-- The arming delay random.uniform(2, 5) slept at line 139, as the
program's binary64 arithmetic computes it. -/
def arming_delay_fl (u : ℚ) : ℚ := uniform_fl 2 5 u

/-- The largest value CPython's random.random() can return: (2^53-1)/2^53,
attained when the generator draws 53 one bits. -/
def U_MAX : ℚ := (2 ^ 53 - 1) / 2 ^ 53

/-- Python round(x, 2) (to two decimal places; the tie-breaking convention
is immaterial to every claim, none of which touches an exact half-cent). -/
def round2 (x : ℚ) : ℚ := (round (x * 100) : ℤ) / 100

/-- The 999 sentinel medir_distancia returns when an echo edge does not
arrive within 0.1 s. -/
def SENSOR_SENTINELA : ℚ := 999

/-- The hardware branch of medir_distancia: 999 if either echo-edge wait
timed out, otherwise the pulse duration converted to centimeters. -/
def medir_distancia_hwreal (lowTimeout highTimeout : Bool)
    (duracao_pulso : ℚ) : ℚ :=
  if lowTimeout then SENSOR_SENTINELA
  else if highTimeout then SENSOR_SENTINELA
  else round2 (duracao_pulso * VELOCIDADE_DO_SOM / 2)

/-- The simulation branch of medir_distancia: random.choice([50, 40, 5]),
indexed by which of the three values the generator picked. -/
def medir_distancia_sim (c : Fin 3) : ℚ := [(50 : ℚ), 40, 5].get c

/-- Phase of the trial, following the positions in iniciar_teste. -/
inductive Fase where
  | idle
  | arming
  | awaiting
  | reporting
deriving DecidableEq

/-- Events of the trigger-guard system: a rising edge on the button, and
the internal completions of the arming sleep, the polling loop, and the
feedback sequence. -/
inductive Ev where
  | trigger
  | armDone
  | pollDone
  | reportDone
deriving DecidableEq

/-- Trigger-guard state: current phase, whether the GPIO edge callback is
registered (listening), and how many trials have been started. -/
structure Sist where
  fase : Fase
  listening : Bool
  iniciados : ℕ
deriving DecidableEq

/-- Initial state: idle, edge detection registered by the main block. -/
def sistInit : Sist := ⟨.idle, true, 0⟩

/-- One step of the trigger-guard system.  A trigger edge invokes
iniciar_teste only while edge detection is registered; the callback starts
by calling GPIO.remove_event_detect, and re-registers at its very end. -/
def passo (s : Sist) (e : Ev) : Sist :=
  match e with
  | .trigger => if s.listening then ⟨.arming, false, s.iniciados + 1⟩ else s
  | .armDone => if s.fase = .arming then { s with fase := .awaiting } else s
  | .pollDone => if s.fase = .awaiting then { s with fase := .reporting } else s
  | .reportDone =>
    if s.fase = .reporting then ⟨.idle, true, s.iniciados⟩ else s

/-- Run a whole event trace from the initial state. -/
def executar (tr : List Ev) : Sist := tr.foldl passo sistInit

/-- Hardware state for the exception model: outputs, whether the edge
callback is registered, and a counter of output calls attempted so far
(used to address calls by a fault set). -/
structure HW where
  amarelo : Bool
  verde : Bool
  vermelho : Bool
  buzzer : Bool
  listening : Bool
  chamadas : ℕ
deriving DecidableEq

/-- Initial hardware state after configuracao_gpio and add_event_detect. -/
def hwInit : HW := ⟨false, false, false, false, true, 0⟩

/-- A fault set: which output calls (by index) raise an exception. -/
def Falhas : Type := ℕ → Bool

/-- One GPIO.output call on an LED pin: raises if the fault set marks this
call index, otherwise sets the LED.  The raised state keeps the effects
performed so far. -/
def saidaLed (f : Falhas) (l : Luz) (b : Bool) (s : HW) : Except HW HW :=
  let s' := { s with chamadas := s.chamadas + 1 }
  if f s.chamadas then .error s'
  else
    .ok (match l with
      | .amarelo => { s' with amarelo := b }
      | .verde => { s' with verde := b }
      | .vermelho => { s' with vermelho := b })

/-- One buzzer output call (GPIO.output on PIN_BUZZER or a PWM duty-cycle
change), fallible like saidaLed. -/
def saidaBuzzer (f : Falhas) (b : Bool) (s : HW) : Except HW HW :=
  let s' := { s with chamadas := s.chamadas + 1 }
  if f s.chamadas then .error s' else .ok { s' with buzzer := b }

/-- Sequencing of two fallible actions: an exception in the first skips
the second, as in straight-line Python. -/
def depois (a b : HW → Except HW HW) (s : HW) : Except HW HW :=
  match a s with
  | .ok s' => b s'
  | .error e => .error e

/-- The body of limpar_saidas before its except clause. -/
def limpar_saidas_tenta (f : Falhas) : HW → Except HW HW :=
  depois (saidaLed f .amarelo false)
    (depois (saidaLed f .verde false)
      (depois (saidaLed f .vermelho false) (saidaBuzzer f false)))

/-- limpar_saidas: the whole body is wrapped in try/except Exception: pass,
so a raising call abandons the rest of the sequence but the function itself
always returns normally. -/
def limpar_saidas_hw (f : Falhas) (s : HW) : Except HW HW :=
  match limpar_saidas_tenta f s with
  | .ok s' => .ok s'
  | .error e => .ok e

/-- tocar_tom on hardware: for a positive frequency the buzzer is driven
(duty 50) and released (duty 0); both are fallible output calls.  Nothing
here is wrapped in try/except. -/
def tocar_tom_hw (f : Falhas) (freq : ℕ) : HW → Except HW HW :=
  if 0 < freq then depois (saidaBuzzer f true) (saidaBuzzer f false)
  else fun s => .ok s

/-- mostrar_resultado in the exception model: limpar_saidas, then the
classification branch whose LED and tone calls are NOT inside any
try/except, then limpar_saidas again. -/
def mostrar_resultado_hw (f : Falhas) (t : ℚ) : HW → Except HW HW :=
  depois (limpar_saidas_hw f)
    (depois
      (if t ≤ LIMITE_EXCELENTE then
        depois (saidaLed f .verde true) (tocar_tom_hw f 1500)
      else if t ≤ LIMITE_MEDIO then
        depois (saidaLed f .amarelo true)
          (depois (saidaLed f .amarelo false)
            (depois (saidaLed f .amarelo true)
              (depois (saidaLed f .amarelo false)
                (depois (saidaLed f .amarelo true)
                  (saidaLed f .amarelo false)))))
      else
        depois (saidaLed f .vermelho true) (tocar_tom_hw f 440))
      (limpar_saidas_hw f))

/-- iniciar_teste in the exception model, parameterised by the polling-loop
outcome (some r = detection with reaction time r, none = window timeout):
remove_event_detect, yellow on, yellow off, green on, mostrar_resultado
with the measured time or 9.99, then add_event_detect.  None of its own
calls are wrapped in try/except. -/
def iniciar_teste_hw (f : Falhas) (reagiu : Option ℚ) (s : HW) :
    Except HW HW :=
  match
    depois (saidaLed f .amarelo true)
      (depois (saidaLed f .amarelo false) (saidaLed f .verde true))
      { s with listening := false } with
  | .error e => .error e
  | .ok s1 =>
    match mostrar_resultado_hw f (reagiu.getD TEMPO_TIMEOUT) s1 with
    | .error e => .error e
    | .ok s2 => .ok { s2 with listening := true }

/-- Whether a fallible run ended in an uncaught exception. -/
def estaErro : Except HW HW → Bool
  | .ok _ => false
  | .error _ => true

/-- Whether the edge callback is registered after a fallible run. -/
def escutandoDepois : Except HW HW → Bool
  | .ok s => s.listening
  | .error s => s.listening

/-- The fault set with no failing calls. -/
def semFalha : Falhas := fun _ => false

/-- A fault set whose only failing call is output call number 4: in
mostrar_resultado from a fresh state this is the first LED write of the
classification branch, after the four caught calls of limpar_saidas. -/
def falhaC8 : Falhas := fun n => n == 4

/-- A fault set whose only failing call is output call number 7: in
iniciar_teste from a fresh state this is the first LED write of the
classification branch inside mostrar_resultado. -/
def falhaC4 : Falhas := fun n => n == 7

/-- Folding limpar_saidas over any output state turns everything off. -/
theorem limpar_foldl (s : Saidas) :
    limparEvents.foldl aplicarEv s = saidasOff := by
  cases s
  rfl

/-- Claim C1: mostrar_resultado classifies t ≤ 0.3 as EXCELLENT (green LED,
single short 1500 Hz tone), 0.3 < t ≤ 0.6 as MEDIUM (yellow LED blinking
three times, no tone), and t > 0.6 as SLOW (red LED, single long 440 Hz
tone); both boundaries fall into the lower tier. -/
theorem claim_c1 (t : ℚ) :
    (t ≤ LIMITE_EXCELENTE →
      classificar t = .excelente ∧
      mostrar_resultado_events t =
        limparEvents ++ [.led .verde true, .tom 1500 (1/5)] ++ limparEvents) ∧
    (LIMITE_EXCELENTE < t → t ≤ LIMITE_MEDIO →
      classificar t = .medio ∧
      mostrar_resultado_events t =
        limparEvents ++
          [.led .amarelo true, .led .amarelo false, .led .amarelo true,
           .led .amarelo false, .led .amarelo true, .led .amarelo false] ++
          limparEvents) ∧
    ( LIMITE_MEDIO < t →
      classificar t = .lento ∧
      mostrar_resultado_events t =
        limparEvents ++ [.led .vermelho true, .tom 440 1] ++ limparEvents) := by
  refine ⟨?_, ?_, ?_⟩
  · intro h
    simp [classificar, mostrar_resultado_events, h]
  · intro h1 h2
    simp [classificar, mostrar_resultado_events, not_le.mpr h1, h2]
  · intro h
    have h1 : ¬ t ≤ LIMITE_EXCELENTE := by
      have : LIMITE_EXCELENTE < LIMITE_MEDIO := by
        norm_num [LIMITE_EXCELENTE, LIMITE_MEDIO]
      exact not_le.mpr (lt_trans this h)
    simp [classificar, mostrar_resultado_events, h1, not_le.mpr h]

/-- Witness for C1 at the two boundaries and at one slow time. -/
theorem claim_c1_witness :
    classificar (3/10) = .excelente ∧ classificar (6/10) = .medio ∧
    classificar 1 = .lento :=
  ⟨((claim_c1 (3/10)).1 (by norm_num [LIMITE_EXCELENTE])).1,
   ((claim_c1 (6/10)).2.1 (by norm_num [LIMITE_EXCELENTE])
     (by norm_num [ LIMITE_MEDIO])).1,
   ((claim_c1 1).2.2 (by norm_num [ LIMITE_MEDIO])).1⟩

/-- Round to nearest is within half a unit of its argument. -/
theorem roundEvenQ_sub_abs (y : ℚ) : |(roundEvenQ y : ℚ) - y| ≤ 1/2 := by
  have h0 : (⌊y⌋ : ℚ) ≤ y := Int.floor_le y
  have h1 : y < ⌊y⌋ + 1 := Int.lt_floor_add_one y
  unfold roundEvenQ
  split_ifs <;> rw [abs_le] <;> push_cast <;> constructor <;> linarith

/-- Round to nearest never goes below the floor. -/
theorem floor_le_roundEvenQ (y : ℚ) : ⌊y⌋ ≤ roundEvenQ y := by
  unfold roundEvenQ
  split_ifs <;> omega

/-- Round to nearest never goes above the ceiling. -/
theorem roundEvenQ_le_ceil (y : ℚ) : roundEvenQ y ≤ ⌈y⌉ := by
  have h0 : (⌊y⌋ : ℚ) ≤ y := Int.floor_le y
  unfold roundEvenQ
  split_ifs with ha hb hc
  · exact Int.floor_le_ceil y
  · exact Int.add_one_le_ceil_iff.mpr (by linarith)
  · exact Int.floor_le_ceil y
  · exact Int.add_one_le_ceil_iff.mpr (by linarith)

/-- Round to nearest fixes integers. -/
theorem roundEvenQ_intCast (n : ℤ) : roundEvenQ (n : ℚ) = n := by
  unfold roundEvenQ
  rw [Int.floor_intCast, if_pos (by rw [sub_self]; norm_num)]

/-- Evaluating roundEvenQ when the fractional part is under one half. -/
theorem roundEvenQ_eq_floor (y : ℚ) (f : ℤ) (hf : ⌊y⌋ = f)
    (h : y - (f : ℚ) < 1/2) : roundEvenQ y = f := by
  unfold roundEvenQ
  rw [hf, if_pos h]

/-- Evaluating roundEvenQ at an exact tie with an odd floor. -/
theorem roundEvenQ_tie_odd (y : ℚ) (f : ℤ) (hf : ⌊y⌋ = f)
    (h : y - (f : ℚ) = 1/2) (ho : ¬ Even f) : roundEvenQ y = f + 1 := by
  unfold roundEvenQ
  rw [hf, if_neg (by rw [h]; norm_num), if_neg (by rw [h]; norm_num),
    if_neg ho]

/-- fl64 on the binade 2^e ≤ x < 2^(e+1) scales, rounds and scales back. -/
theorem fl64_eq_binade (x : ℚ) (e : ℤ) (h1 : (2:ℚ) ^ e ≤ x)
    (h2 : x < (2:ℚ) ^ (e + 1)) :
    fl64 x = (roundEvenQ (x * 2 ^ (52 - e)) : ℚ) * 2 ^ (e - 52) := by
  have hx : 0 < x := lt_of_lt_of_le (zpow_pos two_pos e) h1
  have h1' : ((2:ℕ):ℚ) ^ e ≤ x := by exact_mod_cast h1
  have h2' : x < ((2:ℕ):ℚ) ^ (e + 1) := by exact_mod_cast h2
  have hlog : Int.log 2 x = e := by
    have hle : e ≤ Int.log 2 x := (Int.zpow_le_iff_le_log (by norm_num) hx).mp h1'
    have hlt : Int.log 2 x < e + 1 := (Int.lt_zpow_iff_log_lt (by norm_num) hx).mp h2'
    omega
  unfold fl64
  rw [hlog, if_neg (not_le.mpr hx)]

/-- On the binade 2^e ≤ x < 2^(e+1), fl64 is within half an ulp, 2^(e-53). -/
theorem fl64_sub_abs (x : ℚ) (e : ℤ) (h1 : (2:ℚ) ^ e ≤ x)
    (h2 : x < (2:ℚ) ^ (e + 1)) : |fl64 x - x| ≤ (2:ℚ) ^ (e - 53) := by
  rw [fl64_eq_binade x e h1 h2]
  have hp : (0:ℚ) < (2:ℚ) ^ (e - 52) := zpow_pos two_pos _
  have hxy : (roundEvenQ (x * 2 ^ (52 - e)) : ℚ) * 2 ^ (e - 52) - x
      = ((roundEvenQ (x * 2 ^ (52 - e)) : ℚ) - x * 2 ^ (52 - e)) * 2 ^ (e - 52) := by
    rw [sub_mul, mul_assoc, ← zpow_add₀ (by norm_num : (2:ℚ) ≠ 0),
      show (52 - e) + (e - 52) = (0:ℤ) by ring, zpow_zero, mul_one]
  rw [hxy, abs_mul, abs_of_pos hp]
  calc |(roundEvenQ (x * 2 ^ (52 - e)) : ℚ) - x * 2 ^ (52 - e)| * 2 ^ (e - 52)
      ≤ (1/2) * 2 ^ (e - 52) :=
        mul_le_mul_of_nonneg_right (roundEvenQ_sub_abs _) hp.le
    _ = 2 ^ (e - 53) := by
        rw [show (1:ℚ)/2 = (2:ℚ) ^ (-1 : ℤ) by norm_num,
          ← zpow_add₀ (by norm_num : (2:ℚ) ≠ 0)]
        congr 1
        ring

/-- fl64 preserves nonnegativity. -/
theorem fl64_nonneg (x : ℚ) (hx : 0 ≤ x) : 0 ≤ fl64 x := by
  unfold fl64
  split_ifs with h
  · exact hx
  · push_neg at h
    have hy : ((0:ℤ):ℚ) ≤ x * 2 ^ (52 - Int.log 2 x) := by positivity
    have hr : (0:ℤ) ≤ roundEvenQ (x * 2 ^ (52 - Int.log 2 x)) :=
      le_trans (Int.le_floor.mpr hy) (floor_le_roundEvenQ _)
    exact mul_nonneg (by exact_mod_cast hr) (zpow_pos two_pos _).le

/-- Relative error of fl64: at most one part in 2^53 for positive inputs. -/
theorem fl64_rel (x : ℚ) (hx : 0 < x) :
    |fl64 x - x| ≤ x * (2:ℚ) ^ (-53 : ℤ) := by
  have h1 : ((2:ℕ):ℚ) ^ (Int.log 2 x) ≤ x := Int.zpow_log_le_self (by norm_num) hx
  have h2 : x < ((2:ℕ):ℚ) ^ (Int.log 2 x + 1) := Int.lt_zpow_succ_log_self (by norm_num) x
  have h1' : (2:ℚ) ^ (Int.log 2 x) ≤ x := by exact_mod_cast h1
  have h2' : x < (2:ℚ) ^ (Int.log 2 x + 1) := by exact_mod_cast h2
  refine le_trans (fl64_sub_abs x (Int.log 2 x) h1' h2') ?_
  have hsplit : (2:ℚ) ^ (Int.log 2 x - 53)
      = (2:ℚ) ^ (Int.log 2 x) * (2:ℚ) ^ (-53 : ℤ) := by
    rw [← zpow_add₀ (by norm_num : (2:ℚ) ≠ 0)]
    congr 1
  rw [hsplit]
  exact mul_le_mul_of_nonneg_right h1' (zpow_pos two_pos _).le

/-- The double 3.0 = 5.0 - 2.0 is exact. -/
theorem fl64_three : fl64 3 = 3 := by
  rw [fl64_eq_binade 3 1 (by norm_num) (by norm_num)]
  rw [show (3:ℚ) * 2 ^ (52 - (1:ℤ)) = ((6755399441055744 : ℤ) : ℚ) by
    push_cast
    norm_num]
  rw [roundEvenQ_intCast]
  push_cast
  norm_num

/-- The double 2.0 is exact. -/
theorem fl64_two : fl64 2 = 2 := by
  rw [fl64_eq_binade 2 1 (by norm_num) (by norm_num)]
  rw [show (2:ℚ) * 2 ^ (52 - (1:ℤ)) = ((4503599627370496 : ℤ) : ℚ) by
    push_cast
    norm_num]
  rw [roundEvenQ_intCast]
  push_cast
  norm_num

/-- Counterexample to C5 as stated: at the largest attainable random()
sample (2^53-1)/2^53, the binary64 evaluation of 2 + (5-2)*u rounds twice
(3*u to 3 - 2^-51, then the sum 5 - 2^-51, an exact tie, up to 5.0), so
the sampled delay equals 5.0, violating the strict upper bound d < 5. -/
theorem claim_c5_cex :
    0 ≤ U_MAX ∧ U_MAX < 1 ∧ arming_delay_fl U_MAX = 5 ∧
    ¬ arming_delay_fl U_MAX < 5 := by
  have hv : fl64 ((27021597764222973 : ℚ) / 9007199254740992)
      = 6755399441055743 / 2251799813685248 := by
    rw [fl64_eq_binade _ 1 (by norm_num) (by norm_num)]
    rw [show (27021597764222973 : ℚ) / 9007199254740992 * 2 ^ (52 - (1:ℤ))
        = 27021597764222973 / 4 by norm_num]
    have hf : ⌊(27021597764222973 / 4 : ℚ)⌋ = 6755399441055743 := by
      rw [Int.floor_eq_iff]
      norm_num
    rw [roundEvenQ_eq_floor _ _ hf (by push_cast; norm_num)]
    push_cast
    norm_num
  have hw : fl64 (2 + (6755399441055743 : ℚ) / 2251799813685248) = 5 := by
    rw [show (2:ℚ) + 6755399441055743 / 2251799813685248
        = 11258999068426239 / 2251799813685248 by norm_num]
    rw [fl64_eq_binade _ 2 (by norm_num) (by norm_num)]
    rw [show (11258999068426239 : ℚ) / 2251799813685248 * 2 ^ (52 - (2:ℤ))
        = 11258999068426239 / 2 by norm_num]
    have hf : ⌊(11258999068426239 / 2 : ℚ)⌋ = 5629499534213119 := by
      rw [Int.floor_eq_iff]
      norm_num
    rw [roundEvenQ_tie_odd _ _ hf (by push_cast; norm_num)
      (by norm_num [Int.even_iff])]
    push_cast
    norm_num
  have hmain : arming_delay_fl U_MAX = 5 := by
    unfold arming_delay_fl uniform_fl
    rw [show (5:ℚ) - 2 = 3 by norm_num, fl64_three]
    rw [show (3:ℚ) * U_MAX = 27021597764222973 / 9007199254740992 by
      rw [U_MAX]
      norm_num]
    rw [hv, hw]
  exact ⟨by rw [U_MAX]; norm_num, by rw [U_MAX]; norm_num, hmain,
    by rw [hmain]; norm_num⟩

/-- Claim C5, amended: for every sample k/2^53 (k < 2^53) of random(),
the binary64 evaluation of uniform(2, 5) yields a delay d with
2 ≤ d ≤ 5; the upper endpoint is closed because rounding can reach it. -/
theorem claim_c5 (k : ℕ) (hk : k < 2 ^ 53) :
    2 ≤ arming_delay_fl ((k : ℚ) / 2 ^ 53) ∧
    arming_delay_fl ((k : ℚ) / 2 ^ 53) ≤ 5 := by
  unfold arming_delay_fl uniform_fl
  rw [show (5:ℚ) - 2 = 3 by norm_num, fl64_three]
  rcases Nat.eq_zero_or_pos k with hk0 | hk0
  · subst hk0
    rw [show (3:ℚ) * (((0:ℕ) : ℚ) / 2 ^ 53) = 0 by norm_num]
    rw [show fl64 0 = 0 by unfold fl64; norm_num]
    rw [show (2:ℚ) + 0 = 2 by norm_num, fl64_two]
    norm_num
  · have hkq : (0:ℚ) < (k : ℚ) := by exact_mod_cast hk0
    have hku : (k : ℚ) ≤ 2 ^ 53 - 1 := by
      have hk1 : k ≤ 2 ^ 53 - 1 := by omega
      calc (k : ℚ) ≤ ((2 ^ 53 - 1 : ℕ) : ℚ) := by exact_mod_cast hk1
        _ = 2 ^ 53 - 1 := by push_cast; norm_num
    set u : ℚ := (k : ℚ) / 2 ^ 53 with hu
    have hu0 : 0 < u := by rw [hu]; positivity
    have huub : u ≤ 1 - (2:ℚ) ^ (-53 : ℤ) := by
      rw [hu, show (2:ℚ) ^ (-53 : ℤ) = 1 / 2 ^ 53 by norm_num]
      rw [div_le_iff₀ (by positivity : (0:ℚ) < 2 ^ 53)]
      rw [show (1 - 1 / 2 ^ 53 : ℚ) * 2 ^ 53 = 2 ^ 53 - 1 by field_simp]
      linarith
    have hε : (0:ℚ) < (2:ℚ) ^ (-53 : ℤ) := zpow_pos two_pos _
    have hx0 : 0 < 3 * u := by positivity
    have hxub : 3 * u ≤ 3 - 3 * (2:ℚ) ^ (-53 : ℤ) := by linarith
    have hvabs := abs_le.mp (fl64_rel (3 * u) hx0)
    have hv0 : 0 ≤ fl64 (3 * u) := fl64_nonneg (3 * u) hx0.le
    set v : ℚ := fl64 (3 * u) with hv
    have hvlt : v < 3 := by
      nlinarith [hvabs.2, mul_le_mul_of_nonneg_right hxub hε.le,
        mul_pos hε hε]
    by_cases hvc : 2 + v < 4
    · have h1 : (2:ℚ) ^ (1:ℤ) ≤ 2 + v := by
        rw [zpow_one]
        linarith
      have h2 : 2 + v < (2:ℚ) ^ ((1:ℤ) + 1) := by
        rw [show (2:ℚ) ^ ((1:ℤ) + 1) = 4 by norm_num]
        linarith
      constructor
      · rw [fl64_eq_binade _ 1 h1 h2]
        have hy : ((2 ^ 52 : ℤ) : ℚ) ≤ (2 + v) * 2 ^ (52 - (1:ℤ)) := by
          rw [show (2:ℚ) ^ (52 - (1:ℤ)) = 2251799813685248 by norm_num]
          push_cast
          nlinarith
        have hr : (2 ^ 52 : ℤ) ≤ roundEvenQ ((2 + v) * 2 ^ (52 - (1:ℤ))) :=
          le_trans (Int.le_floor.mpr hy) (floor_le_roundEvenQ _)
        have hrq : ((2 ^ 52 : ℤ) : ℚ)
            ≤ (roundEvenQ ((2 + v) * 2 ^ (52 - (1:ℤ))) : ℚ) := by
          exact_mod_cast hr
        calc (2:ℚ) = ((2 ^ 52 : ℤ) : ℚ) * 2 ^ ((1:ℤ) - 52) := by
              push_cast
              norm_num
          _ ≤ (roundEvenQ ((2 + v) * 2 ^ (52 - (1:ℤ))) : ℚ) * 2 ^ ((1:ℤ) - 52) :=
              mul_le_mul_of_nonneg_right hrq (zpow_pos two_pos _).le
      · have habs := (abs_le.mp (fl64_sub_abs (2 + v) 1 h1 h2)).2
        have hsm : (2:ℚ) ^ ((1:ℤ) - 53) ≤ 1 := by norm_num
        linarith
    · push_neg at hvc
      have h1 : (2:ℚ) ^ (2:ℤ) ≤ 2 + v := by
        rw [show (2:ℚ) ^ (2:ℤ) = 4 by norm_num]
        linarith
      have h2 : 2 + v < (2:ℚ) ^ ((2:ℤ) + 1) := by
        rw [show (2:ℚ) ^ ((2:ℤ) + 1) = 8 by norm_num]
        linarith
      constructor
      · rw [fl64_eq_binade _ 2 h1 h2]
        have hy : ((2 ^ 52 : ℤ) : ℚ) ≤ (2 + v) * 2 ^ (52 - (2:ℤ)) := by
          rw [show (2:ℚ) ^ (52 - (2:ℤ)) = 1125899906842624 by norm_num]
          push_cast
          nlinarith
        have hr : (2 ^ 52 : ℤ) ≤ roundEvenQ ((2 + v) * 2 ^ (52 - (2:ℤ))) :=
          le_trans (Int.le_floor.mpr hy) (floor_le_roundEvenQ _)
        have hrq : ((2 ^ 52 : ℤ) : ℚ)
            ≤ (roundEvenQ ((2 + v) * 2 ^ (52 - (2:ℤ))) : ℚ) := by
          exact_mod_cast hr
        calc (2:ℚ) ≤ ((2 ^ 52 : ℤ) : ℚ) * 2 ^ ((2:ℤ) - 52) := by
              push_cast
              norm_num
          _ ≤ (roundEvenQ ((2 + v) * 2 ^ (52 - (2:ℤ))) : ℚ) * 2 ^ ((2:ℤ) - 52) :=
              mul_le_mul_of_nonneg_right hrq (zpow_pos two_pos _).le
      · rw [fl64_eq_binade _ 2 h1 h2]
        have hy : (2 + v) * 2 ^ (52 - (2:ℤ)) ≤ ((5 * 2 ^ 50 : ℤ) : ℚ) := by
          rw [show (2:ℚ) ^ (52 - (2:ℤ)) = 1125899906842624 by norm_num]
          push_cast
          nlinarith
        have hr : roundEvenQ ((2 + v) * 2 ^ (52 - (2:ℤ))) ≤ 5 * 2 ^ 50 :=
          le_trans (roundEvenQ_le_ceil _) (Int.ceil_le.mpr hy)
        have hrq : (roundEvenQ ((2 + v) * 2 ^ (52 - (2:ℤ))) : ℚ)
            ≤ ((5 * 2 ^ 50 : ℤ) : ℚ) := by
          exact_mod_cast hr
        calc (roundEvenQ ((2 + v) * 2 ^ (52 - (2:ℤ))) : ℚ) * 2 ^ ((2:ℤ) - 52)
            ≤ ((5 * 2 ^ 50 : ℤ) : ℚ) * 2 ^ ((2:ℤ) - 52) :=
              mul_le_mul_of_nonneg_right hrq (zpow_pos two_pos _).le
          _ = 5 := by
              push_cast
              norm_num

/-- Witness for C5 at the sample k = 0. -/
theorem claim_c5_witness :
    (0:ℕ) < 2 ^ 53 ∧
    (2 ≤ arming_delay_fl (((0:ℕ) : ℚ) / 2 ^ 53) ∧
      arming_delay_fl (((0:ℕ) : ℚ) / 2 ^ 53) ≤ 5) :=
  ⟨by norm_num, claim_c5 0 (by norm_num)⟩

/-- Claim C7: a failed sensor read returns the 999 sentinel, the sentinel
is not at or under the 10 cm detection threshold, and a tick returning the
sentinel inside the window just continues the polling loop. -/
theorem claim_c7 (lt ht : Bool) (d tc tr : ℚ) (rest : List Tick) :
    (lt = true ∨ ht = true →
      medir_distancia_hwreal lt ht d = SENSOR_SENTINELA) ∧
    ¬ SENSOR_SENTINELA ≤ DISTANCIA_GATILHO ∧
    (tc < JANELA_REACAO →
      pollLoop (⟨tc, SENSOR_SENTINELA, tr⟩ :: rest) = pollLoop rest) := by
  refine ⟨?_, by norm_num [SENSOR_SENTINELA, DISTANCIA_GATILHO], ?_⟩
  · rintro (h | h)
    · simp [medir_distancia_hwreal, h]
    · cases lt <;> simp [medir_distancia_hwreal, h]
  · intro h
    have hd : ¬ SENSOR_SENTINELA ≤ DISTANCIA_GATILHO := by
      norm_num [SENSOR_SENTINELA, DISTANCIA_GATILHO]
    simp [pollLoop, h, hd]

/-- Witness for C7: an echo timeout at the first tick of the window. -/
theorem claim_c7_witness :
    medir_distancia_hwreal true false 0 = SENSOR_SENTINELA ∧
    pollLoop [⟨0, SENSOR_SENTINELA, 0⟩] = pollLoop [] :=
  ⟨(claim_c7 true false 0 0 0 []).1 (Or.inl rfl),
   (claim_c7 true false 0 0 0 []).2.2 (by norm_num [JANELA_REACAO])⟩

/-- Claim C9: whatever the tier and whatever state the outputs were in,
after mostrar_resultado every LED is off and the buzzer is silent. -/
theorem claim_c9 (t : ℚ) (s : Saidas) :
    (mostrar_resultado_events t).foldl aplicarEv s = saidasOff := by
  unfold mostrar_resultado_events
  rw [List.foldl_append]
  exact limpar_foldl _

/-- Claim C10: in simulation mode every reading is one of 50, 40 or 5 cm,
a reading detects exactly when it is the 5 cm one, and the 999 sentinel is
never produced. -/
theorem claim_c10 (c : Fin 3) :
    (medir_distancia_sim c = 50 ∨ medir_distancia_sim c = 40 ∨
      medir_distancia_sim c = 5) ∧
    (medir_distancia_sim c ≤ DISTANCIA_GATILHO ↔ medir_distancia_sim c = 5) ∧
    medir_distancia_sim c ≠ SENSOR_SENTINELA := by
  fin_cases c <;>
    refine ⟨by norm_num [medir_distancia_sim], ?_, ?_⟩ <;>
      norm_num [medir_distancia_sim, DISTANCIA_GATILHO, SENSOR_SENTINELA]

/-- If some tick reaches the deadline and no in-window tick detects, the
polling loop exits by the while-condition check. -/
theorem pollLoop_deadline (ticks : List Tick)
    (hc : ∃ t ∈ ticks, ¬ t.tCheck < JANELA_REACAO)
    (hn : ∀ t ∈ ticks, t.tCheck < JANELA_REACAO →
      ¬ t.dist ≤ DISTANCIA_GATILHO) :
    pollLoop ticks = .deadline := by
  induction ticks with
  | nil => simp at hc
  | cons t rest ih =>
    by_cases h5 : t.tCheck < JANELA_REACAO
    · have hd : ¬ t.dist ≤ DISTANCIA_GATILHO := hn t (by simp) h5
      simp only [pollLoop, if_pos h5, if_neg hd]
      apply ih
      · rcases hc with ⟨u, hu, hnu⟩
        rcases List.mem_cons.mp hu with h | h
        · rw [h] at hnu
          exact absurd h5 hnu
        · exact ⟨u, h, hnu⟩
      · intro u hu h5u
        exact hn u (List.mem_cons_of_mem _ hu) h5u
    · simp only [pollLoop, if_neg h5]

/-- Claim C2: when no reading within the 5-second window is at or under
10 cm, the loop exits by the deadline check, the trial reports the fixed
sentinel 9.99 which is strictly above both thresholds, and the unchanged
classification yields the SLOW feedback (red LED, long 440 Hz tone). -/
theorem claim_c2 (ticks : List Tick)
    (hc : ∃ t ∈ ticks, ¬ t.tCheck < JANELA_REACAO)
    (hn : ∀ t ∈ ticks, t.tCheck < JANELA_REACAO →
      ¬ t.dist ≤ DISTANCIA_GATILHO) :
    pollLoop ticks = .deadline ∧
    LIMITE_EXCELENTE < TEMPO_TIMEOUT ∧ LIMITE_MEDIO < TEMPO_TIMEOUT ∧
    classificar TEMPO_TIMEOUT = .lento ∧
    trialEventsOf none =
      [.led .amarelo true, .led .amarelo false, .led .verde true] ++
        mostrar_resultado_events TEMPO_TIMEOUT ∧
    mostrar_resultado_events TEMPO_TIMEOUT =
      limparEvents ++ [.led .vermelho true, .tom 440 1] ++ limparEvents := by
  have h1 : ¬ TEMPO_TIMEOUT ≤ LIMITE_EXCELENTE := by
    norm_num [TEMPO_TIMEOUT, LIMITE_EXCELENTE]
  have h2 : ¬ TEMPO_TIMEOUT ≤ LIMITE_MEDIO := by
    norm_num [TEMPO_TIMEOUT, LIMITE_MEDIO]
  refine ⟨pollLoop_deadline ticks hc hn,
    by norm_num [TEMPO_TIMEOUT, LIMITE_EXCELENTE],
    by norm_num [TEMPO_TIMEOUT, LIMITE_MEDIO],
    by simp [classificar, h1, h2], rfl,
    by simp [mostrar_resultado_events, h1, h2]⟩

/-- Witness for C2: readings of 50 cm at the start and 5 cm only after the
window has closed. -/
theorem claim_c2_witness :
    pollLoop [⟨0, 50, 0⟩, ⟨6, 5, 6⟩] = PollExit.deadline :=
  (claim_c2 [⟨0, 50, 0⟩, ⟨6, 5, 6⟩] (by decide) (by decide)).1

/-- One step of the trigger-guard system preserves the guard invariant:
the edge callback is registered exactly in the idle phase. -/
theorem passo_invariante (s : Sist) (e : Ev)
    (h : s.listening = true ↔ s.fase = .idle) :
    ((passo s e).listening = true ↔ (passo s e).fase = .idle) := by
  cases e
  case trigger =>
    by_cases hl : s.listening = true
    · simp [passo, hl]
    · simpa [passo, hl] using h
  case armDone =>
    by_cases hf : s.fase = .arming
    · simp [passo, hf, h]
    · simpa [passo, hf] using h
  case pollDone =>
    by_cases hf : s.fase = .awaiting
    · simp [passo, hf, h]
    · simpa [passo, hf] using h
  case reportDone =>
    by_cases hf : s.fase = .reporting
    · simp [passo, hf]
    · simpa [passo, hf] using h

/-- The guard invariant holds in every reachable state. -/
theorem executar_invariante (tr : List Ev) :
    ((executar tr).listening = true ↔ (executar tr).fase = .idle) := by
  have aux : ∀ (l : List Ev) (s : Sist),
      (s.listening = true ↔ s.fase = .idle) →
      ((l.foldl passo s).listening = true ↔ (l.foldl passo s).fase = .idle) := by
    intro l
    induction l with
    | nil =>
      intro s hs
      simpa using hs
    | cons e rest ih =>
      intro s hs
      simpa [List.foldl_cons] using ih (passo s e) (passo_invariante s e hs)
  simpa [executar] using aux tr sistInit (by simp [sistInit])

/-- Claim C3: in every execution, a trigger edge arriving while a trial is
in progress (phase not idle) is dropped without any state change, and a
trigger edge starts a new trial only when the system is idle with the edge
callback registered. -/
theorem claim_c3 (tr : List Ev) :
    ((executar tr).fase ≠ .idle → passo (executar tr) .trigger = executar tr) ∧
    ((passo (executar tr) .trigger).iniciados = (executar tr).iniciados + 1 →
      (executar tr).listening = true ∧ (executar tr).fase = .idle) := by
  have hinv := executar_invariante tr
  constructor
  · intro hni
    have hl : ¬ (executar tr).listening = true := fun h => hni (hinv.mp h)
    simp [passo, hl]
  · intro hplus
    by_cases hl : (executar tr).listening = true
    · exact ⟨hl, hinv.mp hl⟩
    · rw [show passo (executar tr) .trigger = executar tr from by
        simp [passo, hl]] at hplus
      omega

/-- Witness for C3: a second trigger right after the first is dropped. -/
theorem claim_c3_witness :
    passo (executar [Ev.trigger]) Ev.trigger = executar [Ev.trigger] :=
  (claim_c3 [Ev.trigger]).1 (by decide)

/-- Claim C6: starting from all outputs off, at every instant of a trial
(whatever the loop outcome and reaction time) at most one LED is lit, the
armed and go LEDs are never lit together, and the feedback phase begins by
clearing every output. -/
theorem claim_c6 (reagiu : Option ℚ) :
    ((trialEventsOf reagiu).scanl aplicarEv saidasOff).all luzOk = true ∧
    (mostrar_resultado_events (reagiu.getD TEMPO_TIMEOUT)).take 4 =
      limparEvents := by
  cases reagiu with
  | none =>
    have h1 : ¬ TEMPO_TIMEOUT ≤ LIMITE_EXCELENTE := by
      norm_num [TEMPO_TIMEOUT, LIMITE_EXCELENTE]
    have h2 : ¬ TEMPO_TIMEOUT ≤ LIMITE_MEDIO := by
      norm_num [TEMPO_TIMEOUT, LIMITE_MEDIO]
    simp only [trialEventsOf, Option.getD, mostrar_resultado_events, h1, h2,
      if_false, limparEvents, List.cons_append, List.nil_append]
    exact ⟨by decide, by decide⟩
  | some r =>
    by_cases h1 : r ≤ LIMITE_EXCELENTE
    · simp only [trialEventsOf, Option.getD, mostrar_resultado_events, h1,
        if_true, limparEvents, List.cons_append, List.nil_append]
      exact ⟨by decide, by decide⟩
    · by_cases h2 : r ≤ LIMITE_MEDIO
      · simp only [trialEventsOf, Option.getD, mostrar_resultado_events, h1,
          h2, if_false, if_true, limparEvents, List.cons_append,
          List.nil_append]
        exact ⟨by decide, by decide⟩
      · simp only [trialEventsOf, Option.getD, mostrar_resultado_events, h1,
          h2, if_false, limparEvents, List.cons_append, List.nil_append]
        exact ⟨by decide, by decide⟩

/-- Counterexample to C4 as stated: with the single output call number 7
raising (the green-LED write inside mostrar_resultado's EXCELLENT branch),
iniciar_teste ends in an uncaught exception and the edge callback is left
unregistered — an error path that leaves trigger listening disabled. -/
theorem claim_c4_cex :
    estaErro (iniciar_teste_hw falhaC4 (some 0) hwInit) = true ∧
    escutandoDepois (iniciar_teste_hw falhaC4 (some 0) hwInit) = false := by
  have h1 : (0:ℚ) ≤ LIMITE_EXCELENTE := by norm_num [LIMITE_EXCELENTE]
  constructor <;>
    simp [iniciar_teste_hw, mostrar_resultado_hw, depois, limpar_saidas_hw,
      limpar_saidas_tenta, saidaLed, saidaBuzzer, tocar_tom_hw, falhaC4,
      hwInit, estaErro, escutandoDepois, h1]

/-- Claim C4, amended: every run of iniciar_teste that completes normally
(returns without an uncaught exception), whether by detection or by
timeout and under any fault pattern, re-registers the trigger callback. -/
theorem claim_c4 (f : Falhas) (reagiu : Option ℚ) (s s' : HW)
    (h : iniciar_teste_hw f reagiu s = Except.ok s') :
    s'.listening = true := by
  unfold iniciar_teste_hw at h
  split at h
  · exact absurd h (by simp)
  · split at h
    · exact absurd h (by simp)
    · simp only [Except.ok.injEq] at h
      subst h
      rfl

/-- Witness for C4: a fault-free timeout trial completes normally with the
callback re-registered. -/
theorem claim_c4_witness :
    iniciar_teste_hw semFalha none hwInit =
      Except.ok ⟨false, false, false, false, true, 14⟩ ∧
    HW.listening ⟨false, false, false, false, true, 14⟩ = true := by
  have h1 : ¬ TEMPO_TIMEOUT ≤ LIMITE_EXCELENTE := by
    norm_num [TEMPO_TIMEOUT, LIMITE_EXCELENTE]
  have h2 : ¬ TEMPO_TIMEOUT ≤ LIMITE_MEDIO := by
    norm_num [TEMPO_TIMEOUT, LIMITE_MEDIO]
  have heq : iniciar_teste_hw semFalha none hwInit =
      Except.ok ⟨false, false, false, false, true, 14⟩ := by
    simp [iniciar_teste_hw, mostrar_resultado_hw, depois, limpar_saidas_hw,
      limpar_saidas_tenta, saidaLed, saidaBuzzer, tocar_tom_hw, semFalha,
      hwInit, h1, h2]
  exact ⟨heq, claim_c4 semFalha none hwInit _ heq⟩

/-- Counterexample to C8 as stated: with the single output call number 4
raising (the first LED write of the classification branch, right after the
four calls that limpar_saidas does catch), mostrar_resultado propagates an
uncaught exception out of the trial logic. -/
theorem claim_c8_cex :
    estaErro (mostrar_resultado_hw falhaC8 0 hwInit) = true := by
  have h1 : (0:ℚ) ≤ LIMITE_EXCELENTE := by norm_num [LIMITE_EXCELENTE]
  simp [mostrar_resultado_hw, depois, limpar_saidas_hw, limpar_saidas_tenta,
    saidaLed, saidaBuzzer, tocar_tom_hw, falhaC8, hwInit, estaErro, h1]

/-- Claim C8, amended: the output calls inside limpar_saidas are caught and
ignored — limpar_saidas returns normally under every fault pattern, keeping
the effects performed before the failure — but the indicator and tone calls
made directly in mostrar_resultado's classification branches are not
wrapped, and a failure there propagates out of the trial logic. -/
theorem claim_c8 :
    (∀ (f : Falhas) (s : HW), ∃ s', limpar_saidas_hw f s = Except.ok s') ∧
    estaErro (mostrar_resultado_hw falhaC8 0 hwInit) = true := by
  constructor
  · intro f s
    unfold limpar_saidas_hw
    cases h : limpar_saidas_tenta f s with
    | ok s1 => exact ⟨s1, rfl⟩
    | error e => exact ⟨e, rfl⟩
  · have h1 : (0:ℚ) ≤ LIMITE_EXCELENTE := by norm_num [LIMITE_EXCELENTE]
    simp [mostrar_resultado_hw, depois, limpar_saidas_hw,
      limpar_saidas_tenta, saidaLed, saidaBuzzer, tocar_tom_hw, falhaC8,
      hwInit, estaErro, h1]
